import Mathlib

/-!
Verification of the NASA-weather-bot core (app/page.tsx): the dialogue state
machine and the weather-risk derivation pipeline. JavaScript numbers are
modelled as rationals, strings as Lean strings, and the stateful React
component as explicit state passing. Each definition is a direct translation
of the function of the same name in app/page.tsx; where network access or
randomness enters, the external input is an explicit parameter.
-/

/-- Math.max(5, Math.min(95, x)): the clamp applied to every risk score in
calculateRisksFromRealData. -/
def clamp595 (x : ℚ) : ℚ := max 5 (min 95 x)

/-- Math.round on a rational: round half toward positive infinity, as
JavaScript does. -/
def jsRound (x : ℚ) : ℤ := ⌊x + 1/2⌋

/-- The decimal digit character for n % 10. -/
def digitChar (n : ℕ) : Char := Char.ofNat (48 + n % 10)

/-- Decimal digits of a natural number, most significant first, with fuel for
structural recursion. -/
def natDigits : ℕ → ℕ → List Char
  | 0, _ => []
  | f + 1, n => if n = 0 then [] else natDigits f (n / 10) ++ [digitChar (n % 10)]

/-- Decimal rendering of a natural number. -/
def natToStr (n : ℕ) : String := if n = 0 then "0" else ⟨natDigits (n + 1) n⟩

/-- Decimal rendering of an integer, as JavaScript stringifies an integral
number. -/
def intToStr (z : ℤ) : String :=
  if z < 0 then "-" ++ natToStr z.natAbs else natToStr z.natAbs

/-- String interpolation of Math.round(x) inside a template literal. -/
def renderRound (x : ℚ) : String := intToStr (jsRound x)

/-- Rendering of the integer n as n/10 with exactly one decimal digit. -/
def fix1ofInt (n : ℤ) : String :=
  (if n < 0 then "-" else "") ++ natToStr (n.natAbs / 10) ++ "." ++ natToStr (n.natAbs % 10)

/-- Number.prototype.toFixed(1): the nearest multiple of 1/10, ties toward the
larger value, rendered with one decimal digit. -/
def toFixed1 (x : ℚ) : String := fix1ofInt ⌊10 * x + 1/2⌋

/-- String.prototype.includes on character lists: needle occurs contiguously
in the haystack. -/
def containsSub (needle : List Char) : List Char → Bool
  | [] => needle.isEmpty
  | c :: t => needle.isPrefixOf (c :: t) || containsSub needle t

/-- String.prototype.toLowerCase, character by character. -/
def lowerStr (s : List Char) : List Char := s.map Char.toLower

/-- The closed activity enumeration: the six keys of eventTypes, eventMap and
eventAdjustments in app/page.tsx. -/
inductive ActivityType
  | vacation
  | hiking
  | fishing
  | picnic
  | sports
  | camping
deriving DecidableEq

/-- The string stored for an activity in chatState.eventType (the eventMap
key). -/
def ActivityType.str : ActivityType → String
  | .vacation => "vacation"
  | .hiking => "hiking"
  | .fishing => "fishing"
  | .picnic => "picnic"
  | .sports => "sports"
  | .camping => "camping"

/-- The NASAWeatherData interface of app/page.tsx. -/
structure NASAWeatherData where
  temperature : ℚ
  precipitation : ℚ
  humidity : ℚ
  windSpeed : ℚ
  cloudCover : ℚ
  lat : ℚ
  lon : ℚ
  locationName : String
deriving DecidableEq

/-- The RiskData interface of app/page.tsx: the five risk percentages. -/
structure RiskData where
  hot : ℚ
  cold : ℚ
  windy : ℚ
  wet : ℚ
  uncomfortable : ℚ
deriving DecidableEq

/-- The keys of RiskData, in the declaration order of the interface (the order
Object.keys and Object.values observe). -/
inductive RiskKey
  | hot
  | cold
  | windy
  | wet
  | uncomfortable
deriving DecidableEq

/-- Field access risks[key]. -/
def RiskData.get (r : RiskData) : RiskKey → ℚ
  | .hot => r.hot
  | .cold => r.cold
  | .windy => r.windy
  | .wet => r.wet
  | .uncomfortable => r.uncomfortable

/-- Object.keys(risks) for a RiskData object: insertion order. -/
def riskKeys : List RiskKey := [.hot, .cold, .windy, .wet, .uncomfortable]

/-- The baseRisks object computed at the top of calculateRisksFromRealData. -/
def baseRisks (weatherData : NASAWeatherData) : RiskData where
  hot := clamp595 ((weatherData.temperature - 25) * 3)
  cold := clamp595 ((5 - weatherData.temperature) * 4)
  windy := clamp595 (weatherData.windSpeed * 2)
  wet := clamp595 (weatherData.precipitation * 10 + weatherData.humidity * 0.3)
  uncomfortable := clamp595 (|weatherData.temperature - 20| * 2 + weatherData.humidity * 0.2)

/-- A Partial RiskData: the per-activity adjustment records of
eventAdjustments, a field present only when the activity adjusts it. -/
structure RiskAdj where
  hot : Option ℚ := none
  cold : Option ℚ := none
  windy : Option ℚ := none
  wet : Option ℚ := none
  uncomfortable : Option ℚ := none

/-- The eventAdjustments table of calculateRisksFromRealData. -/
def eventAdjustments : ActivityType → RiskAdj
  | .vacation => { hot := some 10, wet := some 15, uncomfortable := some 5 }
  | .hiking => { hot := some 15, cold := some 10, windy := some 10, wet := some 20 }
  | .fishing => { windy := some 20, wet := some 25, uncomfortable := some 10 }
  | .picnic => { wet := some 30, windy := some 15, hot := some 10 }
  | .sports => { hot := some 25, wet := some 20, uncomfortable := some 15 }
  | .camping => { cold := some 20, wet := some 25, windy := some 10, uncomfortable := some 15 }

/-- One pass of the Object.keys(adjustments).forEach loop on a single field:
a present adjustment is added to the base score and re-clamped, an absent one
leaves the base score as it is. -/
def adjustField (b : ℚ) : Option ℚ → ℚ
  | some v => clamp595 (b + v)
  | none => b

/-- The forEach loop of calculateRisksFromRealData: each field reads only its
own base score, so the five updates are independent. -/
def applyAdjustments (b : RiskData) (a : RiskAdj) : RiskData where
  hot := adjustField b.hot a.hot
  cold := adjustField b.cold a.cold
  windy := adjustField b.windy a.windy
  wet := adjustField b.wet a.wet
  uncomfortable := adjustField b.uncomfortable a.uncomfortable

/-- calculateRisksFromRealData of app/page.tsx. The eventType string there is
always one of the six eventMap keys (processMessage and handleQuickReply store
no other), so it is taken as the closed enumeration. -/
def calculateRisksFromRealData (weatherData : NASAWeatherData) (eventType : ActivityType) : RiskData :=
  applyAdjustments (baseRisks weatherData) (eventAdjustments eventType)

/-- A risk value in the interval the spec requires of every score. -/
def inRiskRange (x : ℚ) : Prop := 5 ≤ x ∧ x ≤ 95

/-- All five fields of a RiskData lie in the risk interval. -/
def riskDataInRange (r : RiskData) : Prop :=
  inRiskRange r.hot ∧ inRiskRange r.cold ∧ inRiskRange r.windy ∧
    inRiskRange r.wet ∧ inRiskRange r.uncomfortable

/-- A concrete observation: 20 degrees, no precipitation, no humidity, wind
5 km/h, for evaluating the pipeline on one input. -/
def sampleObs : NASAWeatherData :=
  { temperature := 20, precipitation := 0, humidity := 0, windSpeed := 5,
    cloudCover := 0, lat := 0, lon := 0, locationName := "Paris" }

/-- The base scores as the spec states them, one clamped linear transform per
category. -/
def baseRisksSpec (w : NASAWeatherData) : RiskData where
  hot := clamp595 ((w.temperature - 25) * 3)
  cold := clamp595 ((5 - w.temperature) * 4)
  windy := clamp595 (w.windSpeed * 2)
  wet := clamp595 (w.precipitation * 10 + w.humidity * 0.3)
  uncomfortable := clamp595 (|w.temperature - 20| * 2 + w.humidity * 0.2)

/-- Writing one category of a RiskData. -/
def setRisk (r : RiskData) : RiskKey → ℚ → RiskData
  | .hot, v => { r with hot := v }
  | .cold, v => { r with cold := v }
  | .windy, v => { r with windy := v }
  | .wet, v => { r with wet := v }
  | .uncomfortable, v => { r with uncomfortable := v }

/-- The per-activity additive adjustment vector as the spec lists it: only the
listed categories are adjusted. -/
def adjustmentVector : ActivityType → List (RiskKey × ℚ)
  | .vacation => [(.hot, 10), (.wet, 15), (.uncomfortable, 5)]
  | .hiking => [(.hot, 15), (.cold, 10), (.windy, 10), (.wet, 20)]
  | .fishing => [(.windy, 20), (.wet, 25), (.uncomfortable, 10)]
  | .picnic => [(.wet, 30), (.windy, 15), (.hot, 10)]
  | .sports => [(.hot, 25), (.wet, 20), (.uncomfortable, 15)]
  | .camping => [(.cold, 20), (.wet, 25), (.windy, 10), (.uncomfortable, 15)]

/-- The Risk Scorer as the spec words it: compute the five clamped base
scores, then add each present adjustment to its category and re-clamp. -/
def riskScoreSpec (w : NASAWeatherData) (e : ActivityType) : RiskData :=
  (adjustmentVector e).foldl
    (fun r kv => setRisk r kv.1 (clamp595 (r.get kv.1 + kv.2))) (baseRisksSpec w)

/-- Math.max over Object.values(risks), in declaration order. -/
def maxRisk (r : RiskData) : ℚ :=
  max r.hot (max r.cold (max r.windy (max r.wet r.uncomfortable)))

/-- Object.keys(risks).find(key => risks[key] === maxRisk): the first key, in
declaration order, whose value attains the maximum. The find always succeeds
because the maximum is attained; the source casts the result unchecked, the
embedding defaults to hot on the unreachable branch. -/
def maxRiskKey (r : RiskData) : RiskKey :=
  match riskKeys.find? (fun k => decide (r.get k = maxRisk r)) with
  | some k => k
  | none => .hot

/-- The riskLabels table of simulateGeminiAnalysis. -/
def riskLabels : RiskKey → String
  | .hot => "extreme heat"
  | .cold => "freezing temperatures"
  | .windy => "high winds"
  | .wet => "heavy precipitation"
  | .uncomfortable => "uncomfortable conditions"

/-- The fixed dataSources list of simulateGeminiAnalysis. -/
def geminiDataSources : List String :=
  ["NASA Global Forecast System (GFS)", "Open-Meteo Weather API",
    "Historical Climate Patterns", "Satellite Atmospheric Analysis"]

/-- The analysis string simulateGeminiAnalysis accumulates with +=, given the
already-computed risks. -/
def analysisText (risks : RiskData) (weatherData : NASAWeatherData)
    (eventType date : String) : String :=
  let maxR := maxRisk risks
  let maxKey := maxRiskKey risks
  let base := "Based on NASA satellite data and atmospheric analysis for " ++
    weatherData.locationName ++ " on " ++ date ++ ":\n\n"
  if maxR < 30 then
    base ++ ("✅ Excellent conditions for " ++ eventType ++
        "! All weather parameters are within optimal ranges. ") ++
      ("Temperature: " ++ renderRound weatherData.temperature ++ "°C, Wind: " ++
        renderRound weatherData.windSpeed ++ " km/h, Precipitation: " ++
        toFixed1 weatherData.precipitation ++ "mm.")
  else if maxR < 60 then
    base ++ ("⚠️ Moderate risk of " ++ riskLabels maxKey ++ " for " ++ eventType ++ ". ") ++
      ("Consider preparing for " ++ renderRound maxR ++ "% chance of challenging conditions. ") ++
      ("Current forecast: " ++ renderRound weatherData.temperature ++ "°C, " ++
        renderRound weatherData.windSpeed ++ " km/h winds.")
  else
    base ++ ("🚨 High risk of " ++ riskLabels maxKey ++ " for " ++ eventType ++ "! ") ++
      ("Strongly consider rescheduling due to " ++ renderRound maxR ++
        "% chance of adverse conditions. ") ++
      ("Forecast shows " ++ renderRound weatherData.temperature ++ "°C with " ++
        toFixed1 weatherData.precipitation ++ "mm precipitation.")

/-- The record simulateGeminiAnalysis resolves with. -/
structure GeminiAnalysis where
  risks : RiskData
  analysis : String
  dataSources : List String
deriving DecidableEq

/-- simulateGeminiAnalysis of app/page.tsx: computes the risks from the
observation and activity, renders the analysis text, and returns the fixed
data-source list. analyzeWithGemini delegates to it on both of its paths. -/
def simulateGeminiAnalysis (weatherData : NASAWeatherData) (eventType : ActivityType)
    (date : String) : GeminiAnalysis :=
  let risks := calculateRisksFromRealData weatherData eventType
  { risks := risks
    analysis := analysisText risks weatherData eventType.str date
    dataSources := geminiDataSources }

/-- The three severity bands the spec names, selected by the thresholds 30
and 60 on the maximum risk. -/
inductive SeverityBand
  | favorable
  | moderate
  | highRisk
deriving DecidableEq

/-- Severity-band selection as the spec words it. -/
def severityBand (m : ℚ) : SeverityBand :=
  if m < 30 then .favorable else if m < 60 then .moderate else .highRisk

/-- The Narrative Generator as amended: one template per severity band. The
favorable template carries the rounded temperature and wind and the
one-decimal precipitation but no category label or percentage; the moderate
template carries the label, the rounded maximum percentage, temperature and
wind but no precipitation; the high-risk template carries the label, the
rounded maximum percentage, temperature and precipitation but no wind. -/
def narrativeSpec (risks : RiskData) (w : NASAWeatherData) (eventType date : String) : String :=
  let m := maxRisk risks
  let label := riskLabels (maxRiskKey risks)
  let intro := "Based on NASA satellite data and atmospheric analysis for " ++
    w.locationName ++ " on " ++ date ++ ":\n\n"
  match severityBand m with
  | .favorable =>
    intro ++ ("✅ Excellent conditions for " ++ eventType ++
        "! All weather parameters are within optimal ranges. ") ++
      ("Temperature: " ++ renderRound w.temperature ++ "°C, Wind: " ++
        renderRound w.windSpeed ++ " km/h, Precipitation: " ++
        toFixed1 w.precipitation ++ "mm.")
  | .moderate =>
    intro ++ ("⚠️ Moderate risk of " ++ label ++ " for " ++ eventType ++ ". ") ++
      ("Consider preparing for " ++ renderRound m ++ "% chance of challenging conditions. ") ++
      ("Current forecast: " ++ renderRound w.temperature ++ "°C, " ++
        renderRound w.windSpeed ++ " km/h winds.")
  | .highRisk =>
    intro ++ ("🚨 High risk of " ++ label ++ " for " ++ eventType ++ "! ") ++
      ("Strongly consider rescheduling due to " ++ renderRound m ++
        "% chance of adverse conditions. ") ++
      ("Forecast shows " ++ renderRound w.temperature ++ "°C with " ++
        toFixed1 w.precipitation ++ "mm precipitation.")

/-- The conversation stages of the ChatState interface. -/
inductive Stage
  | event
  | location
  | date
deriving DecidableEq

/-- The ChatState interface of app/page.tsx. -/
structure ChatState where
  stage : Stage
  eventType : Option ActivityType
  location : Option String
  date : Option String
deriving DecidableEq

/-- The state useState initialises and startNewChat restores. -/
def initialChatState : ChatState :=
  { stage := .event, eventType := none, location := none, date := none }

/-- The eventMap keyword table of processMessage, in its declared order. -/
def eventMap : List (ActivityType × List String) :=
  [(.vacation, ["vacation", "holiday", "beach", "trip"]),
   (.hiking, ["hike", "hiking", "trail", "trek", "mountain"]),
   (.fishing, ["fish", "fishing", "angling"]),
   (.picnic, ["picnic", "outdoor meal", "park"]),
   (.sports, ["sport", "game", "match", "athletic", "exercise"]),
   (.camping, ["camp", "camping", "tent"])]

/-- The for-loop of processMessage over eventMap: the first activity, in
declared order, one of whose keywords is contained in the lower-cased
message. -/
def matchActivity (lowerMsg : List Char) : Option ActivityType :=
  (eventMap.find? fun p => p.2.any fun k => containsSub k.data lowerMsg).map Prod.fst

/-- The state transition of processMessage in app/page.tsx. The bot replies
it schedules are presentational and carry no state, so only the setChatState
effects are modelled; the date stage additionally starts the report pipeline,
modelled separately by generateRealWeatherReport. -/
def processMessage (s : ChatState) (message : String) : ChatState :=
  let lowerMsg := lowerStr message.data
  match s.stage with
  | .event =>
    match matchActivity lowerMsg with
    | some e => { s with eventType := some e, stage := .location }
    | none => s
  | .location => { s with location := some message, stage := .date }
  | .date => { s with date := some message }

/-- A geocoding result: latitude, longitude and display name. -/
structure GeoCoords where
  lat : ℚ
  lon : ℚ
  name : String
deriving DecidableEq

/-- The fallbackCities table of getCoordinatesFromLocation, in its declared
order (the order Object.entries iterates). -/
def fallbackCities : List (String × GeoCoords) :=
  [("new york", { lat := 40.7128, lon := -74.0060, name := "New York" }),
   ("london", { lat := 51.5074, lon := -0.1278, name := "London" }),
   ("tokyo", { lat := 35.6762, lon := 139.6503, name := "Tokyo" }),
   ("paris", { lat := 48.8566, lon := 2.3522, name := "Paris" }),
   ("sydney", { lat := -33.8688, lon := 151.2093, name := "Sydney" }),
   ("mumbai", { lat := 19.0760, lon := 72.8777, name := "Mumbai" })]

/-- The fixed default of getCoordinatesFromLocation when no substring
matches. -/
def defaultCoords : GeoCoords := { lat := 40.7128, lon := -74.0060, name := "New York" }

/-- The Tokyo entry of the fallback table. -/
def tokyoCoords : GeoCoords := { lat := 35.6762, lon := 139.6503, name := "Tokyo" }

/-- The catch branch of getCoordinatesFromLocation in app/page.tsx: with the
live geocoding call unavailable, the location is lower-cased and matched
against the fallback-city substrings in declared order, defaulting to New
York. Total by construction: the resolver never raises and always returns a
complete coordinate record. -/
def getCoordinatesFromLocation (location : String) : GeoCoords :=
  let normalizedLocation := lowerStr location.data
  match fallbackCities.find? (fun p => containsSub p.1.data normalizedLocation) with
  | some p => p.2
  | none => defaultCoords

/-- The five successive Math.random() draws generateFallbackData makes, in
source order: temperature variation, precipitation variation, humidity, wind
speed, cloud cover. Math.random returns a value in the half-open unit
interval. -/
structure FallbackRand where
  tempR : ℚ
  precipR : ℚ
  humidR : ℚ
  windR : ℚ
  cloudR : ℚ

/-- The sequential tempBase reassignments of generateFallbackData: the
hemisphere from the latitude sign and the season from the zero-based month of
new Date(date).getMonth(). -/
def seasonalTempBase (lat : ℚ) (month : ℕ) : ℚ :=
  let t0 : ℚ := 20
  if 0 < lat then
    let t1 := if 11 ≤ month ∨ month ≤ 2 then (5 : ℚ) else t0
    let t2 := if 3 ≤ month ∧ month ≤ 5 then (15 : ℚ) else t1
    let t3 := if 6 ≤ month ∧ month ≤ 8 then (25 : ℚ) else t2
    if 9 ≤ month ∧ month ≤ 10 then (18 : ℚ) else t3
  else
    let t1 := if 11 ≤ month ∨ month ≤ 2 then (25 : ℚ) else t0
    let t2 := if 3 ≤ month ∧ month ≤ 5 then (18 : ℚ) else t1
    let t3 := if 6 ≤ month ∧ month ≤ 8 then (5 : ℚ) else t2
    if 9 ≤ month ∧ month ≤ 10 then (15 : ℚ) else t3

/-- generateFallbackData of app/page.tsx. The date string enters only through
new Date(date).getMonth(), modelled by the month argument; the random draws
are the explicit FallbackRand argument. Total by construction: the synthetic
fallback never raises. -/
def generateFallbackData (lat lon : ℚ) (month : ℕ) (r : FallbackRand) : NASAWeatherData :=
  let tempBase := seasonalTempBase lat month
  let precipitationBase : ℚ := 2
  let tempVariation := (r.tempR - 0.5) * 10
  let precipVariation := r.precipR * 5
  { temperature := tempBase + tempVariation
    precipitation := max 0 (precipitationBase + precipVariation)
    humidity := 60 + (r.humidR - 0.5) * 30
    windSpeed := 5 + r.windR * 15
    cloudCover := r.cloudR * 100
    lat := lat
    lon := lon
    locationName := "Estimated Data" }

/-- A bot chat message as addMessage appends it: its text, and the optional
risk data and data-source list attached to a report message. The id and
timestamp are presentational. -/
structure BotMessage where
  text : String
  riskData : Option RiskData
  dataSources : Option (List String)
deriving DecidableEq

/-- The status message at the top of the try block of
generateRealWeatherReport. -/
def connectingText : String :=
  "📡 Connecting to NASA data sources and analyzing patterns..."

/-- The single error message of the catch block of
generateRealWeatherReport. -/
def errorText : String :=
  "I encountered an issue accessing real-time NASA data. Please try again in a moment."

/-- The follow-up invitation appended after a successful report. -/
def inviteText : String :=
  "Want to check another event with real NASA data? Just tell me what you're planning!"

/-- The report string of generateRealWeatherReport: the analysis followed by
the real-time data block. -/
def fullReportText (weatherData : NASAWeatherData) (analysis : String) : String :=
  analysis ++ "\n\n**Real-time Data:**\n• Temperature: " ++
    renderRound weatherData.temperature ++ "°C\n• Wind Speed: " ++
    renderRound weatherData.windSpeed ++ " km/h\n• Precipitation: " ++
    toFixed1 weatherData.precipitation ++ "mm\n• Humidity: " ++
    renderRound weatherData.humidity ++ "%\n• Cloud Cover: " ++
    renderRound weatherData.cloudCover ++ "%"

/-- How one run of the report pipeline's awaited calls ends: with an
observation (live or from the built-in fallbacks), or with an exception
escaping into the catch block. -/
inductive FetchOutcome
  | live (w : NASAWeatherData)
  | failure

/-- generateRealWeatherReport of app/page.tsx, as a function of the current
chat state, the activity and date it reads from it, and the outcome of the
awaited calls inside the try block. On success the connecting message, the
report message (carrying the risks and data sources) and the invitation are
emitted and the state is reset to its initial value; in the catch block the
connecting message has already been emitted, the single error message
follows, and no setChatState call runs, so the state is returned unchanged. -/
def generateRealWeatherReport (s : ChatState) (eventType : ActivityType)
    (date : String) : FetchOutcome → List BotMessage × ChatState
  | .live w =>
    let analysis := simulateGeminiAnalysis w eventType date
    ([{ text := connectingText, riskData := none, dataSources := none },
      { text := fullReportText w analysis.analysis,
        riskData := some analysis.risks, dataSources := some analysis.dataSources },
      { text := inviteText, riskData := none, dataSources := none }],
     initialChatState)
  | .failure =>
    ([{ text := connectingText, riskData := none, dataSources := none },
      { text := errorText, riskData := none, dataSources := none }],
     s)

/-- A concrete state in the date stage, as reached right before the pipeline
runs. -/
def awaitingReportState : ChatState :=
  { stage := .date, eventType := some .hiking, location := some "Paris",
    date := some "2025-07-04" }

/-- The events that mutate chatState in app/page.tsx: a user turn handled by
processMessage, a quick-reply click (the buttons are rendered only while
chatState.stage is the activity stage), the completion or failure of the
report pipeline, and the startNewChat reset. -/
inductive ChatEvent
  | userTurn (msg : String)
  | quickReply (a : ActivityType)
  | reportDone (e : ActivityType) (d : String) (w : NASAWeatherData)
  | reportFailed (e : ActivityType) (d : String)
  | newChat

/-- One state transition of the conversation. handleQuickReply spreads the
previous state with the chosen activity and the location stage; it can only
fire in the activity stage, where the quick-reply buttons exist. The report
events take their state effect from generateRealWeatherReport. -/
def stepChat (s : ChatState) : ChatEvent → ChatState
  | .userTurn msg => processMessage s msg
  | .quickReply a =>
    if s.stage = .event then { s with eventType := some a, stage := .location } else s
  | .reportDone e d w => (generateRealWeatherReport s e d (.live w)).2
  | .reportFailed e d => (generateRealWeatherReport s e d .failure).2
  | .newChat => initialChatState

/-- The conversation states reachable from the initial state by any sequence
of events. -/
inductive ReachableState : ChatState → Prop
  | init : ReachableState initialChatState
  | step {s : ChatState} (ev : ChatEvent) :
      ReachableState s → ReachableState (stepChat s ev)

/-- The conversation-state invariant: the activity is set exactly when the
stage is past the activity stage, and the location text is set exactly when
the stage is past the location stage. -/
def stateInv (s : ChatState) : Prop :=
  (s.eventType.isSome = true ↔ s.stage ≠ .event) ∧
    (s.location.isSome = true ↔ s.stage = .date)

/-- The first list element satisfying a predicate splits the list, with the
predicate false on everything before it. -/
theorem find?_first {α : Type} (p : α → Bool) :
    ∀ (l : List α) (x : α), l.find? p = some x →
      ∃ pre post, l = pre ++ x :: post ∧ p x = true ∧ ∀ y ∈ pre, p y = false := by
  intro l
  induction l with
  | nil => intro x h; simp [List.find?] at h
  | cons a t ih =>
    intro x h
    by_cases hp : p a = true
    · rw [List.find?_cons_of_pos _ hp] at h
      cases h
      exact ⟨[], t, rfl, hp, by simp⟩
    · rw [List.find?_cons_of_neg _ hp] at h
      obtain ⟨pre, post, hl, hx, hpre⟩ := ih x h
      refine ⟨a :: pre, post, by simp [hl], hx, ?_⟩
      intro y hy
      rcases List.mem_cons.mp hy with rfl | hy
      · exact Bool.not_eq_true _ ▸ hp
      · exact hpre y hy

/-- The clamp always lands in the closed interval between 5 and 95. -/
theorem clamp595_bounds (x : ℚ) : 5 ≤ clamp595 x ∧ clamp595 x ≤ 95 := by
  constructor
  · exact le_max_left 5 (min 95 x)
  · exact max_le (by norm_num) (min_le_left 95 x)

theorem adjustField_inRange {b : ℚ} (hb : inRiskRange b) (o : Option ℚ) :
    inRiskRange (adjustField b o) := by
  cases o with
  | none => exact hb
  | some v => exact clamp595_bounds (b + v)

theorem baseRisks_inRange (w : NASAWeatherData) : riskDataInRange (baseRisks w) :=
  ⟨clamp595_bounds _, clamp595_bounds _, clamp595_bounds _, clamp595_bounds _, clamp595_bounds _⟩

theorem applyAdjustments_inRange {b : RiskData} (hb : riskDataInRange b) (a : RiskAdj) :
    riskDataInRange (applyAdjustments b a) :=
  ⟨adjustField_inRange hb.1 a.hot, adjustField_inRange hb.2.1 a.cold,
    adjustField_inRange hb.2.2.1 a.windy, adjustField_inRange hb.2.2.2.1 a.wet,
    adjustField_inRange hb.2.2.2.2 a.uncomfortable⟩

/-- The scorer evaluated at the sample observation for a vacation: base scores
are hot 5, cold 5, windy 10, wet 5, uncomfortable 5; the vacation adjustment
then gives 15, 5, 10, 20, 10. -/
theorem sampleRisks_eq :
    calculateRisksFromRealData sampleObs .vacation = ⟨15, 5, 10, 20, 10⟩ := by
  simp only [calculateRisksFromRealData, applyAdjustments, eventAdjustments, baseRisks,
    adjustField, sampleObs, clamp595, RiskData.mk.injEq]
  norm_num

/-- C1: for every weather observation and every activity type, each of the
five risk scores lies in the closed interval between 5 and 95, both after the
base linear transforms and after the per-activity adjustments; and the five
adjusted values need not sum to 100 (no normalization across categories). -/
theorem risk_scores_in_range :
    (∀ (w : NASAWeatherData) (e : ActivityType),
      riskDataInRange (baseRisks w) ∧ riskDataInRange (calculateRisksFromRealData w e)) ∧
    (∃ (w : NASAWeatherData) (e : ActivityType),
      (calculateRisksFromRealData w e).hot + (calculateRisksFromRealData w e).cold +
        (calculateRisksFromRealData w e).windy + (calculateRisksFromRealData w e).wet +
        (calculateRisksFromRealData w e).uncomfortable ≠ 100) := by
  constructor
  · intro w e
    exact ⟨baseRisks_inRange w, applyAdjustments_inRange (baseRisks_inRange w) _⟩
  · refine ⟨sampleObs, .vacation, ?_⟩
    rw [sampleRisks_eq]
    norm_num

/-- C2: the Risk Scorer computes exactly the specified algorithm: the five
clamped base linear transforms, then the fixed per-activity additive
adjustments applied to the listed categories only, each re-clamped. -/
theorem risk_scorer_follows_spec :
    ∀ (w : NASAWeatherData) (e : ActivityType),
      riskScoreSpec w e = calculateRisksFromRealData w e := by
  intro w e
  cases e <;> rfl

/-- The clamp is monotone. -/
theorem clamp595_mono {x y : ℚ} (h : x ≤ y) : clamp595 x ≤ clamp595 y :=
  max_le_max le_rfl (min_le_min le_rfl h)

theorem adjustField_mono {b c : ℚ} (h : b ≤ c) (o : Option ℚ) :
    adjustField b o ≤ adjustField c o := by
  cases o with
  | none => exact h
  | some v => exact clamp595_mono (add_le_add_right h v)

/-- C10: the Risk Scorer is monotone in its hazard inputs: with all other
fields fixed, the Windy score is non-decreasing in wind speed and the Wet
score is non-decreasing in precipitation, for every activity type. -/
theorem risk_scorer_monotone (w : NASAWeatherData) (e : ActivityType)
    {v₁ v₂ p₁ p₂ : ℚ} (hv : v₁ ≤ v₂) (hp : p₁ ≤ p₂) :
    (calculateRisksFromRealData { w with windSpeed := v₁ } e).windy ≤
      (calculateRisksFromRealData { w with windSpeed := v₂ } e).windy ∧
    (calculateRisksFromRealData { w with precipitation := p₁ } e).wet ≤
      (calculateRisksFromRealData { w with precipitation := p₂ } e).wet := by
  constructor
  · exact adjustField_mono (clamp595_mono (by linarith)) _
  · exact adjustField_mono (clamp595_mono (by linarith)) _

/-- Witness for C10 at a concrete input: wind speeds 0 and 1, precipitation
0 and 2, for a hiking trip from the sample observation. -/
theorem risk_scorer_monotone_witness :
    (calculateRisksFromRealData { sampleObs with windSpeed := 0 } .hiking).windy ≤
      (calculateRisksFromRealData { sampleObs with windSpeed := 1 } .hiking).windy ∧
    (calculateRisksFromRealData { sampleObs with precipitation := 0 } .hiking).wet ≤
      (calculateRisksFromRealData { sampleObs with precipitation := 2 } .hiking).wet :=
  risk_scorer_monotone sampleObs .hiking (by decide) (by decide)

/-- C8: the Risk Scorer and the Narrative Generator are deterministic: two
calls with identical inputs return identical results, byte for byte in the
generated text. The embedding is a pure function of its arguments: neither
source function reads Math.random or any other hidden input. -/
theorem scorer_and_narrative_deterministic (w w' : NASAWeatherData)
    (e e' : ActivityType) (d d' : String) (hw : w = w') (he : e = e') (hd : d = d') :
    calculateRisksFromRealData w e = calculateRisksFromRealData w' e' ∧
      simulateGeminiAnalysis w e d = simulateGeminiAnalysis w' e' d' := by
  rw [hw, he, hd]
  exact ⟨rfl, rfl⟩

/-- Witness for C8 at the sample observation. -/
theorem scorer_and_narrative_deterministic_witness :
    calculateRisksFromRealData sampleObs .picnic = calculateRisksFromRealData sampleObs .picnic ∧
      simulateGeminiAnalysis sampleObs .picnic "2025-07-04" =
        simulateGeminiAnalysis sampleObs .picnic "2025-07-04" :=
  scorer_and_narrative_deterministic sampleObs sampleObs .picnic .picnic
    "2025-07-04" "2025-07-04" rfl rfl rfl

/-- The maximum of the five risk values is attained at one of the five keys. -/
theorem maxRisk_attained (r : RiskData) : ∃ k ∈ riskKeys, r.get k = maxRisk r := by
  unfold maxRisk
  rcases max_choice r.hot (max r.cold (max r.windy (max r.wet r.uncomfortable))) with h | h
  · exact ⟨.hot, by simp [riskKeys], by simp [RiskData.get, maxRisk, h]⟩
  · rw [h]
    rcases max_choice r.cold (max r.windy (max r.wet r.uncomfortable)) with h2 | h2
    · exact ⟨.cold, by simp [riskKeys], by simp [RiskData.get, h2]⟩
    · rw [h2]
      rcases max_choice r.windy (max r.wet r.uncomfortable) with h3 | h3
      · exact ⟨.windy, by simp [riskKeys], by simp [RiskData.get, h3]⟩
      · rw [h3]
        rcases max_choice r.wet r.uncomfortable with h4 | h4
        · exact ⟨.wet, by simp [riskKeys], by simp [RiskData.get, h4]⟩
        · exact ⟨.uncomfortable, by simp [riskKeys], by simp [RiskData.get, h4]⟩

/-- The find in maxRiskKey always succeeds, and the key it returns is the
first one attaining the maximum. -/
theorem maxRiskKey_first (r : RiskData) :
    r.get (maxRiskKey r) = maxRisk r ∧
      ∃ pre post, riskKeys = pre ++ maxRiskKey r :: post ∧
        ∀ k ∈ pre, r.get k ≠ maxRisk r := by
  cases hfind : riskKeys.find? (fun k => decide (r.get k = maxRisk r)) with
  | none =>
    exfalso
    obtain ⟨k, hk, hval⟩ := maxRisk_attained r
    have := List.find?_eq_none.mp hfind k hk
    simp [hval] at this
  | some k =>
    have hkey : maxRiskKey r = k := by unfold maxRiskKey; rw [hfind]
    obtain ⟨pre, post, hsplit, hpk, hpre⟩ := find?_first _ riskKeys k hfind
    rw [hkey]
    refine ⟨by simpa using hpk, pre, post, hsplit, ?_⟩
    intro q hq
    have := hpre q hq
    simpa using this

/-- C7 (amended): the Narrative Generator picks the maximum risk, resolving
ties to the first category in the enumeration order hot, cold, windy, wet,
uncomfortable; it selects the severity band by the thresholds 30 and 60; and
it renders, per band, exactly the amended template: the favorable band shows
rounded temperature, rounded wind and one-decimal precipitation without label
or percentage, the moderate band shows label, rounded percentage, temperature
and wind without precipitation, the high band shows label, rounded
percentage, temperature and precipitation without wind. -/
theorem narrative_generator_amended :
    (∀ r : RiskData, r.get (maxRiskKey r) = maxRisk r ∧
      ∃ pre post, riskKeys = pre ++ maxRiskKey r :: post ∧
        ∀ k ∈ pre, r.get k ≠ maxRisk r) ∧
    (∀ (risks : RiskData) (w : NASAWeatherData) (eventType date : String),
      analysisText risks w eventType date = narrativeSpec risks w eventType date) ∧
    (∀ (w : NASAWeatherData) (e : ActivityType) (d : String),
      simulateGeminiAnalysis w e d =
        { risks := calculateRisksFromRealData w e,
          analysis := analysisText (calculateRisksFromRealData w e) w e.str d,
          dataSources := geminiDataSources }) := by
  refine ⟨maxRiskKey_first, ?_, fun w e d => rfl⟩
  intro risks w eventType date
  unfold analysisText narrativeSpec severityBand
  by_cases h1 : maxRisk risks < 30
  · simp only [if_pos h1]
  · by_cases h2 : maxRisk risks < 60
    · simp only [if_neg h1, if_pos h2]
    · simp only [if_neg h1, if_neg h2]

/-- C7 counterexample: at the sample observation for a vacation the maximum
risk is 20 (wet), the severity band is favorable, and the generated text does
not contain the dominant category's human label, so the claim that the label
and the maximum percentage are always rendered fails. -/
theorem narrative_label_counterexample :
    maxRisk (calculateRisksFromRealData sampleObs .vacation) < 30 ∧
    containsSub (riskLabels (maxRiskKey (calculateRisksFromRealData sampleObs .vacation))).data
      (analysisText (calculateRisksFromRealData sampleObs .vacation) sampleObs
        "vacation" "2025-07-04").data = false := by
  rw [sampleRisks_eq]
  have hj20 : jsRound (20 : ℚ) = 20 := by unfold jsRound; norm_num
  have hj5 : jsRound (5 : ℚ) = 5 := by unfold jsRound; norm_num
  have h1 : renderRound (20 : ℚ) = "20" := by unfold renderRound; rw [hj20]; decide
  have h2 : renderRound (5 : ℚ) = "5" := by unfold renderRound; rw [hj5]; decide
  have h3 : toFixed1 (0 : ℚ) = "0.0" := by
    unfold toFixed1
    rw [show (⌊10 * (0 : ℚ) + 1/2⌋ : ℤ) = 0 by norm_num]
    decide
  constructor
  · decide
  · simp only [analysisText, sampleObs, h1, h2, h3]
    decide

/-- C4: in the activity stage processMessage lower-cases the input and picks
the first activity in eventMap order with a contained keyword; the input
"I'm going hiking" advances to the location stage with hiking selected; an
input containing no keyword of any activity leaves the state unchanged. -/
theorem process_activity_message :
    (∀ s : ChatState, s.stage = .event →
      processMessage s "I'm going hiking" =
        { s with eventType := some .hiking, stage := .location }) ∧
    (∀ (s : ChatState) (msg : String) (a : ActivityType), s.stage = .event →
      matchActivity (lowerStr msg.data) = some a →
      processMessage s msg = { s with eventType := some a, stage := .location } ∧
      ∃ pre post ks, eventMap = pre ++ (a, ks) :: post ∧
        (ks.any fun k => containsSub k.data (lowerStr msg.data)) = true ∧
        ∀ q ∈ pre, (q.2.any fun k => containsSub k.data (lowerStr msg.data)) = false) ∧
    (∀ (s : ChatState) (msg : String), s.stage = .event →
      (∀ p ∈ eventMap, ∀ k ∈ p.2, containsSub k.data (lowerStr msg.data) = false) →
      processMessage s msg = s) := by
  refine ⟨?_, ?_, ?_⟩
  · intro s hs
    unfold processMessage
    rw [hs]
    rfl
  · intro s msg a hs hmatch
    constructor
    · unfold processMessage
      rw [hs]
      simp only [hmatch]
    · obtain ⟨p, hfind⟩ : ∃ p, eventMap.find?
          (fun p => p.2.any fun k => containsSub k.data (lowerStr msg.data)) = some p := by
        unfold matchActivity at hmatch
        cases hf : eventMap.find? (fun p => p.2.any fun k => containsSub k.data (lowerStr msg.data)) with
        | none => rw [hf] at hmatch; simp at hmatch
        | some p => exact ⟨p, rfl⟩
      have hpa : p.1 = a := by
        unfold matchActivity at hmatch
        rw [hfind] at hmatch
        simpa using hmatch
      obtain ⟨pre, post, hsplit, hp, hpre⟩ := find?_first _ eventMap p hfind
      refine ⟨pre, post, p.2, ?_, hp, ?_⟩
      · rw [hsplit, hpa.symm]
      · intro q hq
        exact hpre q hq
  · intro s msg hs hnone
    unfold processMessage
    rw [hs]
    have : matchActivity (lowerStr msg.data) = none := by
      unfold matchActivity
      rw [List.find?_eq_none.mpr]
      · rfl
      · intro p hp
        simp only [Bool.not_eq_true, List.any_eq_false]
        intro k hk
        exact hnone p hp k hk
    simp only [this]

/-- Witness for C4: from the initial state the hiking message advances to the
location stage, and the message "hello there" matches no keyword and leaves
the initial state unchanged. -/
theorem process_activity_message_witness :
    processMessage initialChatState "I'm going hiking" =
      { initialChatState with eventType := some .hiking, stage := .location } ∧
    processMessage initialChatState "hello there" = initialChatState :=
  ⟨process_activity_message.1 initialChatState rfl,
    process_activity_message.2.2 initialChatState "hello there" rfl (by decide)⟩

/-- C5 counterexample: the input "new york tokyo" contains the substring
"tokyo", yet the resolver returns the New York entry, because "new york" is
tested first; so the claim that every tokyo-containing name resolves to the
Tokyo coordinates fails. -/
theorem resolver_tokyo_counterexample :
    containsSub "tokyo".data (lowerStr "new york tokyo".data) = true ∧
    (getCoordinatesFromLocation "new york tokyo").name = "New York" ∧
    (getCoordinatesFromLocation "new york tokyo").lat ≠ tokyoCoords.lat := by
  refine ⟨by decide, by decide, ?_⟩
  show (40.7128 : ℚ) ≠ 35.6762
  norm_num

/-- C5 (amended): the resolver is total; a name containing "tokyo" in any
case and containing neither of the earlier table substrings "new york" and
"london" resolves to the fixed Tokyo coordinates; and a name containing no
fallback-city substring resolves to the fixed default location. -/
theorem resolver_fallback :
    (∀ loc : String,
      containsSub "tokyo".data (lowerStr loc.data) = true →
      containsSub "new york".data (lowerStr loc.data) = false →
      containsSub "london".data (lowerStr loc.data) = false →
      getCoordinatesFromLocation loc = tokyoCoords) ∧
    (∀ loc : String,
      (∀ p ∈ fallbackCities, containsSub p.1.data (lowerStr loc.data) = false) →
      getCoordinatesFromLocation loc = defaultCoords) := by
  constructor
  · intro loc h1 h2 h3
    unfold getCoordinatesFromLocation fallbackCities
    simp only [List.find?_cons, h1, h2, h3]
    rfl
  · intro loc hnone
    have hf : fallbackCities.find? (fun p => containsSub p.1.data (lowerStr loc.data)) = none := by
      rw [List.find?_eq_none]
      intro p hp
      simp only [Bool.not_eq_true]
      exact hnone p hp
    unfold getCoordinatesFromLocation
    simp only [hf]

/-- Witness for C5: the input "ToKyO" contains "tokyo" once lower-cased and
none of the earlier substrings, so it resolves to the Tokyo coordinates; the
input "zzz" matches nothing and resolves to the default. -/
theorem resolver_fallback_witness :
    getCoordinatesFromLocation "ToKyO" = tokyoCoords ∧
    getCoordinatesFromLocation "zzz" = defaultCoords :=
  ⟨resolver_fallback.1 "ToKyO" (by decide) (by decide) (by decide),
    resolver_fallback.2 "zzz" (by decide)⟩

/-- C6: for every latitude, longitude, month of the parsed date string and
every value of the five random draws in the unit interval, the synthetic
fallback observation has non-negative precipitation and humidity and cloud
cover between 0 and 100. -/
theorem fallback_data_bounds (lat lon : ℚ) (month : ℕ) (r : FallbackRand)
    (hh0 : 0 ≤ r.humidR) (hh1 : r.humidR < 1)
    (hc0 : 0 ≤ r.cloudR) (hc1 : r.cloudR < 1) :
    0 ≤ (generateFallbackData lat lon month r).precipitation ∧
    0 ≤ (generateFallbackData lat lon month r).humidity ∧
    (generateFallbackData lat lon month r).humidity ≤ 100 ∧
    0 ≤ (generateFallbackData lat lon month r).cloudCover ∧
    (generateFallbackData lat lon month r).cloudCover ≤ 100 := by
  unfold generateFallbackData
  refine ⟨le_max_left 0 _, ?_, ?_, ?_, ?_⟩ <;> simp only <;> nlinarith

/-- Witness for C6 with every random draw at zero, in a northern summer
month. -/
theorem fallback_data_bounds_witness :
    0 ≤ (generateFallbackData 40 (-74) 6 ⟨0, 0, 0, 0, 0⟩).precipitation ∧
    0 ≤ (generateFallbackData 40 (-74) 6 ⟨0, 0, 0, 0, 0⟩).humidity ∧
    (generateFallbackData 40 (-74) 6 ⟨0, 0, 0, 0, 0⟩).humidity ≤ 100 ∧
    0 ≤ (generateFallbackData 40 (-74) 6 ⟨0, 0, 0, 0, 0⟩).cloudCover ∧
    (generateFallbackData 40 (-74) 6 ⟨0, 0, 0, 0, 0⟩).cloudCover ≤ 100 :=
  fallback_data_bounds 40 (-74) 6 ⟨0, 0, 0, 0, 0⟩
    (by decide) (by decide) (by decide) (by decide)

/-- C3 counterexample: when the pipeline fails from the date-stage state, the
catch block leaves the state exactly as it was, which differs from the
initial state; so the claim that the conversation is reset on failure
fails. -/
theorem report_failure_counterexample :
    (generateRealWeatherReport awaitingReportState .hiking "2025-07-04" .failure).2 =
      awaitingReportState ∧
    awaitingReportState ≠ initialChatState := by
  exact ⟨rfl, by decide⟩

/-- C3 (amended): when the report pipeline fails, exactly one user-visible
error message is emitted, no message carries a risk profile or data sources
(no partial report), and the conversation state is left unchanged rather than
reset; only a successful report resets the state to its initial value. -/
theorem report_failure_behavior :
    ∀ (s : ChatState) (e : ActivityType) (d : String),
      ((generateRealWeatherReport s e d .failure).1.filter
          (fun m => m.text = errorText)).length = 1 ∧
      (∀ m ∈ (generateRealWeatherReport s e d .failure).1,
        m.riskData = none ∧ m.dataSources = none) ∧
      (generateRealWeatherReport s e d .failure).2 = s ∧
      (∀ w : NASAWeatherData,
        (generateRealWeatherReport s e d (.live w)).2 = initialChatState) := by
  intro s e d
  refine ⟨rfl, ?_, rfl, fun w => rfl⟩
  intro m hm
  simp only [generateRealWeatherReport, List.mem_cons, List.not_mem_nil, or_false] at hm
  rcases hm with rfl | rfl
  · exact ⟨rfl, rfl⟩
  · exact ⟨rfl, rfl⟩

/-- The invariant holds at the initial state. -/
theorem stateInv_initial : stateInv initialChatState :=
  ⟨by simp [initialChatState], by simp [initialChatState]⟩

/-- Every step preserves the conversation-state invariant. -/
theorem stepChat_preserves_inv {s : ChatState} (hs : stateInv s) (ev : ChatEvent) :
    stateInv (stepChat s ev) := by
  obtain ⟨h1, h2⟩ := hs
  cases ev with
  | userTurn msg =>
    show stateInv (processMessage s msg)
    unfold processMessage
    cases hstage : s.stage with
    | event =>
      cases hmatch : matchActivity (lowerStr msg.data) with
      | some a =>
        simp only [hmatch]
        refine ⟨by simp, ?_⟩
        simp only
        rw [h2, hstage]
        simp
      | none =>
        simp only [hmatch]
        exact ⟨h1, h2⟩
    | location =>
      have hev : s.eventType.isSome = true := h1.mpr (by rw [hstage]; simp)
      exact ⟨by simp [hev], by simp⟩
    | date =>
      have hev : s.eventType.isSome = true := h1.mpr (by rw [hstage]; simp)
      have hloc : s.location.isSome = true := h2.mpr hstage
      exact ⟨by simp [hev], by simp [hloc]⟩
  | quickReply a =>
    show stateInv (if s.stage = .event then
      { s with eventType := some a, stage := .location } else s)
    by_cases hstage : s.stage = .event
    · rw [if_pos hstage]
      refine ⟨by simp, ?_⟩
      simp only
      rw [h2, hstage]
      simp
    · rw [if_neg hstage]
      exact ⟨h1, h2⟩
  | reportDone e d w => exact stateInv_initial
  | reportFailed e d => exact ⟨h1, h2⟩
  | newChat => exact stateInv_initial

/-- C9: the conversation-state invariant holds in every state reachable from
the initial state by any sequence of user turns, quick replies, report
completions, report failures and resets. -/
theorem reachable_states_satisfy_inv (s : ChatState) (h : ReachableState s) :
    stateInv s := by
  induction h with
  | init => exact stateInv_initial
  | step ev _ ih => exact stepChat_preserves_inv ih ev

/-- Witness for C9 at the initial state itself. -/
theorem reachable_states_satisfy_inv_witness : stateInv initialChatState :=
  reachable_states_satisfy_inv initialChatState ReachableState.init
